import Mathlib

/-!
Verification of the RAB cleaning pipeline (rab/brazil_tax_id.py and
rab/cleaning_pipeline.py) against its natural-language specification.

The Python code is shallowly embedded: pandas cells are `Option String`
(`none` models NaN/None), fallible Python operations return
`Except String` (the error string names the Python exception class),
integer arithmetic is `Nat` (all quantities involved are non-negative),
and float parsing is modelled over `ℚ` (the parsed strings contain only
digits and at most one decimal point, where decimal-string-to-float is
exact).
-/

namespace Rab

/-- Decidable equality for `Except`, so that concrete runs of the
embedded fallible operations can be checked by `decide`. -/
instance exceptDecEq {ε α : Type} [DecidableEq ε] [DecidableEq α] :
    DecidableEq (Except ε α) := fun x y =>
  match x, y with
  | .ok a, .ok b =>
    if h : a = b then isTrue (by rw [h]) else isFalse (by simp [h])
  | .error a, .error b =>
    if h : a = b then isTrue (by rw [h]) else isFalse (by simp [h])
  | .ok _, .error _ => isFalse (by simp)
  | .error _, .ok _ => isFalse (by simp)

/-- Models `int(c)` for a single character: the digit value, or a
`ValueError` (`none`) when the character is not an ASCII digit. -/
def charToNat (c : Char) : Option Nat :=
  if c.isDigit then some (c.toNat - 48) else none

/-- Digit value of a character (total version, used in specification
formulas where all characters are known to be digits). -/
def charVal (c : Char) : Nat := c.toNat - 48

/-- Converts every character of a list to its digit value, failing on the
first non-digit; models `np.array(list(x)).astype("int")`. -/
def mapDigits : List Char → Option (List Nat)
  | [] => some []
  | c :: cs =>
    match charToNat c, mapDigits cs with
    | some d, some ds => some (d :: ds)
    | _, _ => none

/-- Models `np.dot` on two one-dimensional integer arrays: the sum of
pairwise products when the lengths agree, an error (`none`) otherwise. -/
def npDot (a b : List Nat) : Option Nat :=
  if a.length = b.length then some (List.sum (List.zipWith (fun x y => x * y) a b)) else none

/-- Plain weighted sum used in specification-side formulas. -/
def weightedSum (w d : List Nat) : Nat :=
  List.sum (List.zipWith (fun x y => x * y) w d)

/-- Maps a mod-11 remainder to a check digit: 0 when the remainder is
below 2, otherwise 11 minus the remainder. -/
def dvMap (r : Nat) : Nat := if r < 2 then 0 else 11 - r

/-- Python slice `x[:k]` over a string, as a character list. -/
def strTakeList (x : String) (k : Nat) : List Char := x.toList.take k

/-- brazil_tax_id.strip_non_digits: removes all non-digit characters
(`re.sub("[^0-9]+", "", x)`, with the digit class read over ASCII). -/
def strip_non_digits (x : String) : String :=
  String.mk (x.toList.filter Char.isDigit)

/-- brazil_tax_id.check_digits_cnpj: the valid check digit `n` (1 or 2)
of the CNPJ string `x`.  `check_vec[2-n:]` is dotted with the digits of
`x[:-3+n]` and the result is reduced mod 11 and mapped.  Failure
(`none`) models a Python exception (non-digit character or numpy length
mismatch). -/
def check_digits_cnpj (x : String) (n : Nat) : Option Nat :=
  let check_vec : List Nat := [6, 5, 4, 3, 2, 9, 8, 7, 6, 5, 4, 3, 2]
  match mapDigits (x.toList.take (x.length - (3 - n))) with
  | none => none
  | some digits =>
    match npDot (check_vec.drop (2 - n)) digits with
    | none => none
    | some dot => some (dvMap (dot % 11))

/-- brazil_tax_id.valid_cnpj: returns whether the CNPJ is valid.  `none`
input models Python `None` (and also NaN, for which `str(nan)` strips to
the empty string and the function likewise returns false).  The
`Except` result records that every other Python operation in the body
could in principle raise; totality is proved below. -/
def valid_cnpj (x : Option String) : Except String Bool :=
  match x with
  | none => .ok false
  | some s =>
    let s := strip_non_digits s
    if s = "" ∨ s.length ≠ 14 then .ok false
    else
      match mapDigits (s.toList.drop (s.length - 2)) with
      | none => .error "ValueError"
      | some check_val =>
        match check_digits_cnpj s 1, check_digits_cnpj s 2 with
        | some d1, some d2 => .ok (decide ([d1, d2] = check_val))
        | _, _ => .error "ValueError"

/-- brazil_tax_id.check_digits_cpf: the valid check digit `n` (1 or 2) of
the CPF string `x`.  `check_vec = np.flip(np.arange(2, 10 + n))`, i.e.
the descending run from `9 + n` down to 2, dotted with the digits of
`x[:8+n]`. -/
def check_digits_cpf (x : String) (n : Nat) : Option Nat :=
  let check_vec : List Nat := (List.range' 2 (8 + n)).reverse
  match mapDigits (strTakeList x (8 + n)) with
  | none => none
  | some digits =>
    match npDot check_vec digits with
    | none => none
    | some dot => some (dvMap (dot % 11))

/-- brazil_tax_id.valid_cpf: returns whether the CPF is valid. -/
def valid_cpf (x : Option String) : Except String Bool :=
  match x with
  | none => .ok false
  | some s =>
    let s := strip_non_digits s
    if s = "" ∨ s.length ≠ 11 then .ok false
    else
      match mapDigits (s.toList.drop (s.length - 2)) with
      | none => .error "ValueError"
      | some check_val =>
        match check_digits_cpf s 1, check_digits_cpf s 2 with
        | some d1, some d2 => .ok (decide ([d1, d2] = check_val))
        | _, _ => .error "ValueError"

/-- Digit values of a string after stripping non-digit characters (the
digit sequence the validators operate on). -/
def digitVals (s : String) : List Nat :=
  (strip_non_digits s).toList.map charVal

/-- Specification-side first CNPJ check digit: the weight vector
`[5,4,3,2,9,8,7,6,5,4,3,2]` dotted with the first 12 digits, mod 11,
mapped. -/
def specCnpjDV1 (d : List Nat) : Nat :=
  dvMap (weightedSum [5, 4, 3, 2, 9, 8, 7, 6, 5, 4, 3, 2] (d.take 12) % 11)

/-- Specification-side second CNPJ check digit: the same weight vector
additionally prefixed with 6, dotted with the first 13 digits (the 13th
being the first check digit), mod 11, mapped. -/
def specCnpjDV2 (d : List Nat) : Nat :=
  dvMap (weightedSum (6 :: [5, 4, 3, 2, 9, 8, 7, 6, 5, 4, 3, 2]) (d.take 13) % 11)

/-- Claim-side first CPF check digit as C2 words it: the descending
weight sequence starting from 11, of length 9, over the first 9
digits. -/
def claimCpfDV1 (d : List Nat) : Nat :=
  dvMap (weightedSum ((List.range' 3 9).reverse) (d.take 9) % 11)

/-- Claim-side second CPF check digit as C2 words it: the descending
weight sequence starting from 12, of length 10, over the first 10
digits. -/
def claimCpfDV2 (d : List Nat) : Nat :=
  dvMap (weightedSum ((List.range' 3 10).reverse) (d.take 10) % 11)

/-- Amended first CPF check digit: the descending sequence ending at 2 of
length 9 (it starts from 10), over the first 9 digits. -/
def specCpfDV1 (d : List Nat) : Nat :=
  dvMap (weightedSum ((List.range' 2 9).reverse) (d.take 9) % 11)

/-- Amended second CPF check digit: the descending sequence ending at 2
of length 10 (it starts from 11), over the first 10 digits. -/
def specCpfDV2 (d : List Nat) : Nat :=
  dvMap (weightedSum ((List.range' 2 10).reverse) (d.take 10) % 11)

lemma mapDigits_of_all_digits (l : List Char) (h : ∀ c ∈ l, c.isDigit) :
    mapDigits l = some (l.map charVal) := by
  induction l with
  | nil => rfl
  | cons c cs ih =>
    have hc : c.isDigit := h c (List.mem_cons_self c cs)
    have hcs : ∀ x ∈ cs, x.isDigit := fun x hx => h x (List.mem_cons_of_mem c hx)
    simp [mapDigits, charToNat, hc, ih hcs, charVal]

lemma strip_all_digits (s : String) : ∀ c ∈ (strip_non_digits s).toList, c.isDigit := by
  intro c hc
  simp only [strip_non_digits] at hc
  have : (String.mk (s.toList.filter Char.isDigit)).toList = s.toList.filter Char.isDigit := rfl
  rw [this] at hc
  exact (List.mem_filter.mp hc).2

lemma digitVals_length (s : String) :
    (digitVals s).length = (strip_non_digits s).length := by
  rw [digitVals, List.length_map]; rfl

lemma mapDigits_strip_take (s : String) (k : Nat) :
    mapDigits ((strip_non_digits s).toList.take k) = some ((digitVals s).take k) := by
  rw [digitVals, ← List.map_take]
  exact mapDigits_of_all_digits _ (fun c hc => strip_all_digits s c (List.take_subset _ _ hc))

lemma mapDigits_strip_drop (s : String) (k : Nat) :
    mapDigits ((strip_non_digits s).toList.drop k) = some ((digitVals s).drop k) := by
  rw [digitVals, ← List.map_drop]
  exact mapDigits_of_all_digits _ (fun c hc => strip_all_digits s c (List.drop_subset _ _ hc))

lemma check_digits_cnpj_strip (s : String) (h : (digitVals s).length = 14) :
    check_digits_cnpj (strip_non_digits s) 1 = some (specCnpjDV1 (digitVals s)) ∧
    check_digits_cnpj (strip_non_digits s) 2 = some (specCnpjDV2 (digitVals s)) := by
  have hlen : (strip_non_digits s).length = 14 := by
    rw [← digitVals_length]; exact h
  constructor
  · simp only [check_digits_cnpj, hlen, mapDigits_strip_take]
    have hl : ((digitVals s).take 12).length = 12 := by
      rw [List.length_take, h]; omega
    simp [npDot, hl, specCnpjDV1, weightedSum]
  · simp only [check_digits_cnpj, hlen, mapDigits_strip_take]
    have hl : ((digitVals s).take 13).length = 13 := by
      rw [List.length_take, h]; omega
    simp [npDot, hl, specCnpjDV2, weightedSum]

/-- C1: for every input whose stripped form has 14 digits, `valid_cnpj`
returns true iff the two trailing digits are exactly the two check
digits computed with the weight vector `[5,4,3,2,9,8,7,6,5,4,3,2]` (the
second computation prefixing a weight 6, so that the first check digit
participates), each weighted sum taken mod 11 and mapped to 0 when the
remainder is below 2 and to 11 minus the remainder otherwise; and
`valid_cnpj` is false on null input and on every input whose stripped
form does not have exactly 14 digits. -/
theorem C1_valid_cnpj_check_digit_rule :
    valid_cnpj none = .ok false ∧
    (∀ s : String, (digitVals s).length ≠ 14 → valid_cnpj (some s) = .ok false) ∧
    (∀ s : String, (digitVals s).length = 14 →
      (valid_cnpj (some s) = .ok true ↔
        (digitVals s).drop 12 = [specCnpjDV1 (digitVals s), specCnpjDV2 (digitVals s)])) := by
  refine ⟨rfl, ?_, ?_⟩
  · intro s h
    have h' : (strip_non_digits s).length ≠ 14 := by
      rw [← digitVals_length]; exact h
    simp [valid_cnpj, h']
  · intro s h
    have hlen : (strip_non_digits s).length = 14 := by
      rw [← digitVals_length]; exact h
    have hne : ¬(strip_non_digits s = "" ∨ (strip_non_digits s).length ≠ 14) := by
      push_neg
      refine ⟨?_, hlen⟩
      intro h0
      rw [h0] at hlen
      simp at hlen
    obtain ⟨hc1, hc2⟩ := check_digits_cnpj_strip s h
    simp only [valid_cnpj]
    rw [if_neg hne, hlen]
    rw [show (14 - 2 : Nat) = 12 from rfl, mapDigits_strip_drop, hc1, hc2]
    simp only [Except.ok.injEq, decide_eq_true_eq]
    exact eq_comm

/-- Witness for C1 at the known-valid sample identifier 11444777000161. -/
theorem C1_valid_cnpj_check_digit_rule_witness :
    (digitVals "11444777000161").length = 14 ∧
    valid_cnpj (some "11444777000161") = .ok true := by
  refine ⟨by decide, ?_⟩
  exact (C1_valid_cnpj_check_digit_rule.2.2 "11444777000161" (by decide)).mpr (by decide)

lemma check_digits_cpf_strip (s : String) (h : (digitVals s).length = 11) :
    check_digits_cpf (strip_non_digits s) 1 = some (specCpfDV1 (digitVals s)) ∧
    check_digits_cpf (strip_non_digits s) 2 = some (specCpfDV2 (digitVals s)) := by
  constructor
  · simp only [check_digits_cpf, strTakeList, mapDigits_strip_take]
    have hl : ((digitVals s).take 9).length = 9 := by
      rw [List.length_take, h]; omega
    simp [npDot, hl, specCpfDV1, weightedSum, List.length_range']
  · simp only [check_digits_cpf, strTakeList, mapDigits_strip_take]
    have hl : ((digitVals s).take 10).length = 10 := by
      rw [List.length_take, h]; omega
    simp [npDot, hl, specCpfDV2, weightedSum, List.length_range']

/-- Counterexample to C2: the string 10000000019 is accepted by
`valid_cpf` (its code check digits, computed with descending weights
starting from 10 and 11, are 1 and 9), yet its trailing digits do not
equal the check digits computed with descending weight sequences
starting from 11 and 12 as the claim states (the claim-side first check
digit of this string is 0, not 1). -/
theorem C2_counterexample_weights :
    valid_cpf (some "10000000019") = .ok true ∧
    (digitVals "10000000019").drop 9 ≠
      [claimCpfDV1 (digitVals "10000000019"), claimCpfDV2 (digitVals "10000000019")] := by
  constructor
  · decide
  · decide

/-- C2 (amended): for every input whose stripped form has 11 digits,
`valid_cpf` returns true iff the two trailing digits equal the check
digits computed with the descending weight sequences ending at 2, of
length 9 for the first check digit and length 10 for the second,
starting from 10 and 11 respectively; and `valid_cpf` returns false for
null input, empty input, and every input whose stripped length is not
exactly 11. -/
theorem C2_valid_cpf_check_digit_rule :
    valid_cpf none = .ok false ∧
    valid_cpf (some "") = .ok false ∧
    (∀ s : String, (digitVals s).length ≠ 11 → valid_cpf (some s) = .ok false) ∧
    (∀ s : String, (digitVals s).length = 11 →
      (valid_cpf (some s) = .ok true ↔
        (digitVals s).drop 9 = [specCpfDV1 (digitVals s), specCpfDV2 (digitVals s)])) := by
  refine ⟨rfl, by decide, ?_, ?_⟩
  · intro s h
    have h' : (strip_non_digits s).length ≠ 11 := by
      rw [← digitVals_length]; exact h
    simp [valid_cpf, h']
  · intro s h
    have hlen : (strip_non_digits s).length = 11 := by
      rw [← digitVals_length]; exact h
    have hne : ¬(strip_non_digits s = "" ∨ (strip_non_digits s).length ≠ 11) := by
      push_neg
      refine ⟨?_, hlen⟩
      intro h0
      rw [h0] at hlen
      simp at hlen
    obtain ⟨hc1, hc2⟩ := check_digits_cpf_strip s h
    simp only [valid_cpf]
    rw [if_neg hne, hlen]
    rw [show (11 - 2 : Nat) = 9 from rfl, mapDigits_strip_drop, hc1, hc2]
    simp only [Except.ok.injEq, decide_eq_true_eq]
    exact eq_comm

/-- Witness for the amended C2 at the code-valid sample 10000000019. -/
theorem C2_valid_cpf_check_digit_rule_witness :
    (digitVals "10000000019").length = 11 ∧
    valid_cpf (some "10000000019") = .ok true := by
  refine ⟨by decide, ?_⟩
  exact (C2_valid_cpf_check_digit_rule.2.2.2 "10000000019" (by decide)).mpr (by decide)

/-! Field coercers: weight cleaning (wgt_convert) and nullable-integer
coercion (str_to_int), per cell. -/

/-- Characters kept by the first replace of wgt_convert
(`str.replace("[^0-9,.]", "")` with regex semantics, the pandas 1.x
default): digits, comma, and dot. -/
def wgtKeep (c : Char) : Bool := c.isDigit || c = ',' || c = '.'

/-- The second replace of wgt_convert: every comma becomes a dot. -/
def commaToDot (c : Char) : Char := if c = ',' then '.' else c

/-- Models Python `str.strip()` on a character list: removes leading and
trailing whitespace. -/
def pyTrim (l : List Char) : List Char :=
  ((l.dropWhile Char.isWhitespace).reverse.dropWhile Char.isWhitespace).reverse

/-- cleaning_pipeline.wgt_convert, cleaning part for one cell:
`.str.replace("[^0-9,.]", "").str.replace(",", ".").str.strip()`. -/
def wgt_clean (s : String) : String :=
  String.mk (pyTrim ((s.toList.filter wgtKeep).map commaToDot))

/-- Value of a digit run as a natural number. -/
def natOfDigits (l : List Char) : Nat :=
  l.foldl (fun a c => 10 * a + charVal c) 0

/-- Whether a character list is acceptable to Python `float()` given that
it only ever contains digits and dots (the only characters `wgt_clean`
can produce): non-empty, at most one dot, and at least one digit.  The
full `float()` grammar also accepts signs, exponents, and inf/nan,
none of which survive the cleaning. -/
def pyFloatOk (l : List Char) : Bool :=
  !l.isEmpty && l.all (fun c => c.isDigit || c = '.') &&
    decide (l.count '.' ≤ 1) && l.any Char.isDigit

/-- Exact value of a digits-and-one-dot string. -/
def floatVal (l : List Char) : ℚ :=
  let ip := l.takeWhile (fun c => c != '.')
  let fp := (l.dropWhile (fun c => c != '.')).drop 1
  (natOfDigits ip : ℚ) + (natOfDigits fp : ℚ) / ((10 : ℚ) ^ fp.length)

/-- Models Python `float()` restricted to digits-and-dots strings. -/
def parsePyFloat (s : String) : Option ℚ :=
  if pyFloatOk s.toList then some (floatVal s.toList) else none

/-- cleaning_pipeline.wgt_convert on one cell: NaN is filled with -1
before the float cast; any string whose cleaned form `float()` cannot
parse makes `astype("float")` raise ValueError. -/
def wgt_cell (c : Option String) : Except String ℚ :=
  match c with
  | none => .ok (-1)
  | some s =>
    match parsePyFloat (wgt_clean s) with
    | some q => .ok q
    | none => .error "ValueError"

/-- cleaning_pipeline.wgt_convert over a whole column. -/
def wgt_convert (col : List (Option String)) : Except String (List ℚ) :=
  col.mapM wgt_cell

lemma count_dot_map_commaToDot (l : List Char) :
    (l.map commaToDot).count '.' = l.count ',' + l.count '.' := by
  induction l with
  | nil => rfl
  | cons c cs ih =>
    simp only [List.map_cons, List.count_cons, ih]
    by_cases hc : c = ','
    · subst hc
      simp [commaToDot]
      omega
    · by_cases hd : c = '.'
      · subst hd
        simp [commaToDot]
        omega
      · simp [commaToDot, hc, hd]

lemma dropWhile_of_all_false {p : Char → Bool} :
    ∀ l : List Char, (∀ c ∈ l, p c = false) → l.dropWhile p = l := by
  intro l h
  cases l with
  | nil => rfl
  | cons c cs => simp [List.dropWhile_cons, h c (List.mem_cons_self c cs)]

lemma wgtKeep_not_ws {c : Char} (h : wgtKeep c = true) :
    (commaToDot c).isWhitespace = false := by
  have hcd : commaToDot c = c ∨ commaToDot c = '.' := by
    by_cases h1 : c = ',' <;> simp [commaToDot, h1]
  rcases hcd with hcd | hcd
  · rw [hcd]
    by_contra hw
    simp only [Bool.not_eq_false] at hw
    simp only [Char.isWhitespace, Bool.or_eq_true, decide_eq_true_eq] at hw
    rcases hw with ((hw | hw) | hw) | hw <;> subst hw <;> exact absurd h (by decide)
  · rw [hcd]; decide

lemma pyTrim_of_no_ws (l : List Char) (h : ∀ c ∈ l, c.isWhitespace = false) :
    pyTrim l = l := by
  unfold pyTrim
  rw [dropWhile_of_all_false l h]
  rw [dropWhile_of_all_false l.reverse (fun c hc => h c (List.mem_reverse.mp hc))]
  exact List.reverse_reverse l

lemma wgt_clean_toList (s : String) :
    (wgt_clean s).toList = (s.toList.filter wgtKeep).map commaToDot := by
  have h : ∀ c ∈ (s.toList.filter wgtKeep).map commaToDot, c.isWhitespace = false := by
    intro c hc
    obtain ⟨d, hd, rfl⟩ := List.mem_map.mp hc
    exact wgtKeep_not_ws (List.mem_filter.mp hd).2
  show pyTrim ((s.toList.filter wgtKeep).map commaToDot) = _
  exact pyTrim_of_no_ws _ h

/-- Counterexample to C3: the claim's own example cell "1,234.5 kg"
does not coerce to 1234.5 — after comma-to-dot replacement it reads
"1.234.5", which `astype("float")` cannot parse, so the stage raises
ValueError; likewise the empty string raises rather than becoming -1.0
(`fillna(-1)` only fills NaN cells, not empty strings). -/
theorem C3_counterexample_weight_cells :
    wgt_cell (some "1,234.5 kg") = .error "ValueError" ∧
    wgt_cell (some "") = .error "ValueError" ∧
    wgt_cell (some "1,234.5 kg") ≠ .ok (1234.5 : ℚ) ∧
    wgt_cell (some "") ≠ .ok (-1 : ℚ) := by
  refine ⟨by decide, by decide, ?_, ?_⟩ <;> decide

/-- C3 (amended): wgt_convert strips every character except digits,
comma, and dot, replaces comma with dot, trims whitespace, and casts to
float; a null (NaN) cell becomes the sentinel -1, while an empty or
unparseable cell — in particular any cell containing both a comma and a
dot, whose cleaned form has two decimal points — raises ValueError
instead of becoming -1; "1234,5 kg" coerces to 1234.5 and null coerces
to -1.0. -/
theorem C3_weight_coercion :
    wgt_cell none = .ok (-1 : ℚ) ∧
    wgt_cell (some "1234,5 kg") = .ok (1234.5 : ℚ) ∧
    wgt_cell (some "") = .error "ValueError" ∧
    wgt_cell (some "1,234.5 kg") = .error "ValueError" ∧
    (∀ s : String, ',' ∈ s.toList → '.' ∈ s.toList →
      wgt_cell (some s) = .error "ValueError") := by
  refine ⟨by rfl, ?_, by decide, by decide, ?_⟩
  · have h : wgt_cell (some "1234,5 kg") = .ok (floatVal ("1234.5").toList) := rfl
    rw [h]
    congr 1
    have ht : ("1234.5").toList.takeWhile (fun c => c != '.') = ['1', '2', '3', '4'] := by
      decide
    have hd : (("1234.5").toList.dropWhile (fun c => c != '.')).drop 1 = ['5'] := by
      decide
    simp only [floatVal, ht, hd]
    have h1 : natOfDigits ['1', '2', '3', '4'] = 1234 := by decide
    have h2 : natOfDigits ['5'] = 5 := by decide
    rw [h1, h2]
    norm_num
  · intro s hc hd
    have hcf : ',' ∈ s.toList.filter wgtKeep := List.mem_filter.mpr ⟨hc, by decide⟩
    have hdf : '.' ∈ s.toList.filter wgtKeep := List.mem_filter.mpr ⟨hd, by decide⟩
    have hcount : 2 ≤ ((wgt_clean s).toList.count '.') := by
      rw [wgt_clean_toList, count_dot_map_commaToDot]
      have h1 : 0 < (s.toList.filter wgtKeep).count ',' := List.count_pos_iff.mpr hcf
      have h2 : 0 < (s.toList.filter wgtKeep).count '.' := List.count_pos_iff.mpr hdf
      omega
    have hok : pyFloatOk (wgt_clean s).data = false := by
      have : pyFloatOk (wgt_clean s).toList = false := by
        simp only [pyFloatOk, Bool.and_eq_false_iff]
        left; right
        simp only [decide_eq_false_iff_not]
        omega
      exact this
    simp [wgt_cell, parsePyFloat, hok]

/-- Witness for C3's universal comma-and-dot clause at the cell
"1,2.3". -/
theorem C3_weight_coercion_witness :
    ',' ∈ ("1,2.3" : String).toList ∧ '.' ∈ ("1,2.3" : String).toList ∧
    wgt_cell (some "1,2.3") = .error "ValueError" := by
  refine ⟨by decide, by decide, ?_⟩
  exact C3_weight_coercion.2.2.2.2 "1,2.3" (by decide) (by decide)

/-- Models the per-cell parse of `pd.to_numeric` (default
`errors="raise"`): optional surrounding whitespace, optional sign, then
a decimal numeral with an optional single decimal point (exponent and
inf/nan forms, which these columns never contain, are not modelled).
`none` models a raised ValueError. -/
def pyParseNumeric (s : String) : Option ℚ :=
  match pyTrim s.toList with
  | '-' :: r => if pyFloatOk r then some (-(floatVal r)) else none
  | '+' :: r => if pyFloatOk r then some (floatVal r) else none
  | r => if pyFloatOk r then some (floatVal r) else none

/-- cleaning_pipeline.str_to_int on one cell:
`pd.to_numeric(df[col]).astype("Int64")`.  A NaN cell stays NA; a
non-numeric or empty cell makes `to_numeric` raise ValueError; a
fractional numeric value makes the Int64 cast raise TypeError (pandas
refuses to cast non-equivalent float64 to Int64); an integral value is
cast exactly. -/
def str_to_int_cell (c : Option String) : Except String (Option Int) :=
  match c with
  | none => .ok none
  | some s =>
    match pyParseNumeric s with
    | none => .error "ValueError"
    | some q => if q.den = 1 then .ok (some q.num) else .error "TypeError"

/-- cleaning_pipeline.str_to_int over a whole column. -/
def str_to_int (col : List (Option String)) : Except String (List (Option Int)) :=
  col.mapM str_to_int_cell

/-- Counterexample to C4: a non-numeric cell and an empty cell do not
become null — `pd.to_numeric(..., errors="raise")` raises ValueError on
them and the stage propagates the exception. -/
theorem C4_counterexample_nonnumeric_raises :
    str_to_int_cell (some "") = .error "ValueError" ∧
    str_to_int_cell (some "N/A") = .error "ValueError" ∧
    str_to_int_cell (some "") ≠ .ok none ∧
    str_to_int_cell (some "N/A") ≠ .ok none := by
  exact ⟨by decide, by decide, by decide, by decide⟩

/-- C4 (amended): str_to_int parses each cell into a nullable integer
type such that null cells stay null, non-numeric and empty cells raise
ValueError (they do not become null; the caller must pre-clean), and
fractional values are never silently truncated — the Int64 cast raises
TypeError on them, and any integer the stage does produce is exactly
the parsed numeric value. -/
theorem C4_str_to_int_strictness :
    str_to_int_cell none = .ok none ∧
    (∀ s : String, pyParseNumeric s = none → str_to_int_cell (some s) = .error "ValueError") ∧
    (∀ s : String, ∀ q : ℚ, pyParseNumeric s = some q → q.den ≠ 1 →
      str_to_int_cell (some s) = .error "TypeError") ∧
    (∀ s : String, ∀ n : Int, str_to_int_cell (some s) = .ok (some n) →
      pyParseNumeric s = some ((n : ℚ))) := by
  refine ⟨rfl, ?_, ?_, ?_⟩
  · intro s h
    simp [str_to_int_cell, h]
  · intro s q h hq
    simp [str_to_int_cell, h, hq]
  · intro s n h
    match hp : pyParseNumeric s with
    | none =>
      rw [str_to_int_cell] at h
      simp only [hp] at h
      exact Except.noConfusion h
    | some q =>
      rw [str_to_int_cell] at h
      simp only [hp] at h
      by_cases hden : q.den = 1
      · rw [if_pos hden] at h
        have hn : q.num = n := by
          have := Except.ok.inj h
          exact Option.some.inj this
        have hq : ((q.num : ℚ)) = q := by
          have h1 := Rat.num_div_den q
          rw [hden] at h1
          simpa using h1
        rw [← hn, hq]
      · rw [if_neg hden] at h
        exact absurd h (by simp)

/-- Witness for C4's no-silent-truncation clause at the cell "2003". -/
theorem C4_str_to_int_strictness_witness :
    str_to_int_cell (some "2003") = .ok (some 2003) ∧
    pyParseNumeric "2003" = some ((2003 : Int) : ℚ) := by
  have hfv : floatVal ['2', '0', '0', '3'] = ((2003 : Int) : ℚ) := by
    have ht : (['2', '0', '0', '3'] : List Char).takeWhile (fun c => c != '.') =
        ['2', '0', '0', '3'] := by decide
    have hd : ((['2', '0', '0', '3'] : List Char).dropWhile (fun c => c != '.')).drop 1 =
        ([] : List Char) := by decide
    simp only [floatVal, ht, hd]
    have h1 : natOfDigits ['2', '0', '0', '3'] = 2003 := by decide
    have h2 : natOfDigits [] = 0 := by decide
    rw [h1, h2]
    norm_num
  have hpn : pyParseNumeric "2003" = some ((2003 : Int) : ℚ) := by
    have h0 : pyParseNumeric "2003" = some (floatVal ['2', '0', '0', '3']) := rfl
    rw [h0, hfv]
  have hcell : str_to_int_cell (some "2003") = .ok (some 2003) := by
    simp [str_to_int_cell, hpn, Rat.den_intCast, Rat.num_intCast]
  exact ⟨hcell, C4_str_to_int_strictness.2.2.2 "2003" 2003 hcell⟩

/-! Schema normalizer: COLUMN_MAP_JSON, COLUMN_MAP_CSV, rename_columns,
check_raw_data. -/

/-- cleaning_pipeline.COLUMN_MAP_JSON: raw JSON-endpoint header names and
their canonical field names, in declaration order. -/
def COLUMN_MAP_JSON : List (String × String) := [
  ("MARCA", "tail_number"),
  ("PROPRIETARIO", "owner_customer_name"),
  ("OUTROSPROPRIETARIOS", "owner_other"),
  ("SGUF", "owner_state"),
  ("CPFCNPJ", "owner_tax_id"),
  ("NMOPERADOR", "operator_customer_name"),
  ("OUTROSOPERADORES", "operator_other"),
  ("UFOPERADOR", "operator_state"),
  ("CPFCGC", "operator_tax_id"),
  ("NRCERTMATRICULA", "certifate_num"),
  ("NRSERIE", "serial"),
  ("CDCATEGORIA", "opertion_type"),
  ("CDTIPO", "pilot_license_type"),
  ("DSMODELO", "model"),
  ("NMFABRICANTE", "mfg"),
  ("CDCLS", "icao_type_desc"),
  ("NRPMD", "max_takeoff_wgt"),
  ("CDTIPOICAO", "icao_type_code"),
  ("NRTRIPULACAOMIN", "min_crew_size"),
  ("NRPASSAGEIROSMAX", "max_passengers"),
  ("NRASSENTOS", "seats"),
  ("NRANOFABRICACAO", "year_mfg"),
  ("DTVALIDADEIAM", "exp_date_iam"),
  ("DTVALIDADECA", "exp_date_ca"),
  ("DTCANC", "unk_dtcanc"),
  ("DSMOTIVOCANC", "unk_dsmotivocanc"),
  ("CDINTERDICAO", "unk_cdinterdicao"),
  ("CDMARCANAC1", "unk_cdmarcanac1"),
  ("CDMARCANAC2", "unk_cdmarcanac2"),
  ("CDMARCANAC3", "unk_cdmarcanac3"),
  ("CDMARCAESTRANGEIRA", "foreign_tail_number"),
  ("DSGRAVAME", "unk_dsgravame")]

/-- cleaning_pipeline.COLUMN_MAP_CSV: raw CSV-endpoint header names and
their canonical field names, in declaration order. -/
def COLUMN_MAP_CSV : List (String × String) := [
  ("MARCA", "tail_number"),
  ("PROPRIETARIO", "owner_customer_name"),
  ("OUTROS_PROPRIETARIOS", "owner_other"),
  ("UF_PROPRIETARIO", "owner_state"),
  ("CPF_CNPJ_PROPRIETARIO", "owner_tax_id"),
  ("OPERADOR", "operator_customer_name"),
  ("OUTROS_OPERADORES", "operator_other"),
  ("UF_OPERADOR", "operator_state"),
  ("CPF_CGC_OPERADOR", "operator_tax_id"),
  ("MATRICULA", "certifate_num"),
  ("NUM_SERIE", "serial"),
  ("CATEGORIA", "opertion_type"),
  ("TIPO_CERT", "pilot_license_type"),
  ("MODELO", "model"),
  ("NOME_FABRICANTE", "mfg"),
  ("CLASSE", "icao_type_desc"),
  ("PMD", "max_takeoff_wgt"),
  ("TIPO_ICAO", "icao_type_code"),
  ("TRIP_MIN", "min_crew_size"),
  ("PAX_MAX", "max_passengers"),
  ("ASSENTOS", "seats"),
  ("ANO_FABRICACAO", "year_mfg"),
  ("VAL_CAV", "exp_date_iam"),
  ("VAL_CA", "exp_date_ca"),
  ("DATA_CANC", "unk_dtcanc"),
  ("MOTIVO", "unk_dsmotivocanc"),
  ("CD_INTERDICAO", "unk_cdinterdicao"),
  ("MARCA_NAC_1", "unk_cdmarcanac1"),
  ("MARCA_NAC_2", "unk_cdmarcanac2"),
  ("MARCA_NAC_3", "unk_cdmarcanac3"),
  ("MARCA_EST", "foreign_tail_number"),
  ("DESCRICAO_DO_GRAVAME", "unk_dsgravame")]

/-- cleaning_pipeline.rename_columns:
`df.rename(columns=COLUMN_MAP_CSV)` — a column named in the CSV map is
renamed to its canonical name, every other column passes through
unchanged. -/
def rename_columns (cols : List String) : List String :=
  cols.map (fun c =>
    match COLUMN_MAP_CSV.lookup c with
    | some v => v
    | none => c)

/-- cleaning_pipeline.check_raw_data:
`collections.Counter(COLUMN_MAP_CSV.keys()) == Counter(data.columns)` —
multiset equality of the column names with the CSV vocabulary. -/
def check_raw_data (cols : List String) : Bool :=
  decide (Multiset.ofList (COLUMN_MAP_CSV.map Prod.fst) = Multiset.ofList cols)

/-- Counterexample to C5: the JSON header vocabulary is one of the two
known raw vocabularies, yet check_raw_data rejects it (the function
compares against the CSV vocabulary only), and rename_columns leaves
the JSON-only header SGUF unrenamed even though COLUMN_MAP_JSON maps it
to owner_state. -/
theorem C5_counterexample_json_vocabulary :
    check_raw_data (COLUMN_MAP_JSON.map Prod.fst) = false ∧
    rename_columns ["SGUF"] = ["SGUF"] ∧
    COLUMN_MAP_JSON.lookup "SGUF" = some "owner_state" := by
  refine ⟨by decide, by decide, by decide⟩

/-- C5 (amended): check_raw_data returns true iff the table's column
multiset exactly equals the CSV raw header vocabulary — order
independent (invariant under permutation) and duplicate sensitive (a
duplicated known header is rejected) — and rename_columns maps the CSV
vocabulary to the canonical field names while passing any column not in
the CSV map (in particular the JSON vocabulary's distinct names)
through unchanged. -/
theorem C5_check_raw_data_csv_vocabulary :
    (∀ cols : List String, check_raw_data cols = true ↔
      Multiset.ofList cols = Multiset.ofList (COLUMN_MAP_CSV.map Prod.fst)) ∧
    (∀ cols cols' : List String, cols.Perm cols' →
      check_raw_data cols = check_raw_data cols') ∧
    rename_columns (COLUMN_MAP_CSV.map Prod.fst) = COLUMN_MAP_CSV.map Prod.snd ∧
    (∀ c : String, COLUMN_MAP_CSV.lookup c = none → rename_columns [c] = [c]) ∧
    check_raw_data ("MARCA" :: COLUMN_MAP_CSV.map Prod.fst) = false := by
  refine ⟨?_, ?_, by decide, ?_, by decide⟩
  · intro cols
    rw [check_raw_data, decide_eq_true_eq]
    exact eq_comm
  · intro cols cols' hp
    have : Multiset.ofList cols = Multiset.ofList cols' := Multiset.coe_eq_coe.mpr hp
    rw [check_raw_data, check_raw_data, this]
  · intro c hc
    simp [rename_columns, hc]

/-- Witness for C5's universal clauses: permutation invariance at a
two-element swap, and pass-through at the JSON-only header SGUF. -/
theorem C5_check_raw_data_csv_vocabulary_witness :
    check_raw_data ["MARCA", "PMD"] = check_raw_data ["PMD", "MARCA"] ∧
    rename_columns ["SGUF"] = ["SGUF"] := by
  constructor
  · exact C5_check_raw_data_csv_vocabulary.2.1 ["MARCA", "PMD"] ["PMD", "MARCA"] (by decide)
  · exact C5_check_raw_data_csv_vocabulary.2.2.2.1 "SGUF" (by decide)

/-! Date reformatting: format_dates. -/

/-- Models Python `int()` on the strings occurring in these columns: an
optional single leading + or -, then one or more ASCII digits, and
nothing else.  (Python's `int()` additionally accepts surrounding
whitespace, underscore digit separators and non-ASCII digits; those
forms do not occur in the data and are not modelled.)  `none` models a
raised ValueError. -/
def pyInt? (s : String) : Option Int :=
  let l := s.toList
  let core := if l.head? = some '-' ∨ l.head? = some '+' then l.drop 1 else l
  let sgn : Int := if l.head? = some '-' then -1 else 1
  if !core.isEmpty && core.all Char.isDigit then some (sgn * natOfDigits core) else none

/-- cleaning_pipeline.format_dates, inner apply_func for one cell:
converts dates formatted as DDMMYY or DDMMYYYY to YYYY-MM-DD.  A None
cell is returned as is; a cell `int()` cannot parse is returned
verbatim; otherwise day is x[0:2], month x[2:4], year x[4:], and a
two-character year is prefixed with 20 when its value is below 20 and
with 19 otherwise.  The `Except` layer records that the inner `int(y)`
call is not inside the try block. -/
def date_apply_func (x : Option String) : Except String (Option String) :=
  match x with
  | none => .ok none
  | some s =>
    match pyInt? s with
    | none => .ok (some s)
    | some _ =>
      let d := String.mk (s.toList.take 2)
      let m := String.mk ((s.toList.drop 2).take 2)
      let y := String.mk (s.toList.drop 4)
      if y.length = 2 then
        match pyInt? y with
        | none => .error "ValueError"
        | some yv =>
          let y2 := if yv < 20 then "20" ++ y else "19" ++ y
          .ok (some (y2 ++ "-" ++ m ++ "-" ++ d))
      else .ok (some (y ++ "-" ++ m ++ "-" ++ d))

/-- cleaning_pipeline.format_dates over a whole column. -/
def format_dates (col : List (Option String)) : Except String (List (Option String)) :=
  col.mapM date_apply_func

/-- Date format described by C8: day is the first two characters, month
the next two, year the remainder; a two-character year is prefixed with
20 when its value is below 20 and with 19 otherwise; output YYYY-MM-DD
with no validation that day or month are in calendar range. -/
def specDateFormat (s : String) : String :=
  let d := String.mk (s.toList.take 2)
  let m := String.mk ((s.toList.drop 2).take 2)
  let y := String.mk (s.toList.drop 4)
  let y2 :=
    if y.length = 2 then
      if natOfDigits (s.toList.drop 4) < 20 then "20" ++ y else "19" ++ y
    else y
  y2 ++ "-" ++ m ++ "-" ++ d

lemma digit_ne_dash {c : Char} (h : c.isDigit = true) : c ≠ '-' := by
  intro hc; subst hc; exact absurd h (by decide)

lemma digit_ne_plus {c : Char} (h : c.isDigit = true) : c ≠ '+' := by
  intro hc; subst hc; exact absurd h (by decide)

lemma pyInt_digits {l : List Char} (hne : l ≠ []) (hdig : ∀ c ∈ l, c.isDigit = true) :
    pyInt? (String.mk l) = some ((natOfDigits l : Int)) := by
  have hl : (String.mk l).toList = l := rfl
  obtain ⟨a, as, rfl⟩ := List.exists_cons_of_ne_nil hne
  have ha : a.isDigit = true := hdig a (List.mem_cons_self a as)
  have hh : (a :: as).head? = some a := rfl
  have hnd : ¬((a :: as).head? = some '-' ∨ (a :: as).head? = some '+') := by
    rw [hh]
    rintro (h | h) <;> rw [Option.some.injEq] at h
    · exact digit_ne_dash ha h
    · exact digit_ne_plus ha h
  have hnd2 : ¬((a :: as).head? = some '-') := fun h => hnd (Or.inl h)
  rw [pyInt?]
  simp only [hl, if_neg hnd, if_neg hnd2]
  rw [if_pos]
  · rw [one_mul]
  · simp only [Bool.and_eq_true, Bool.not_eq_true', List.isEmpty_iff]
    exact ⟨by simp, List.all_eq_true.mpr (fun c hc => hdig c hc)⟩

lemma pyInt_some_drop_digits {s : String} {v : Int} (h : pyInt? s = some v) :
    ∀ c ∈ s.toList.drop 4, c.isDigit = true := by
  intro c hc
  rw [pyInt?] at h
  by_cases hsgn : s.toList.head? = some '-' ∨ s.toList.head? = some '+'
  · rw [if_pos hsgn] at h
    by_cases hcond : (!(s.toList.drop 1).isEmpty && (s.toList.drop 1).all Char.isDigit) = true
    · have hall := (Bool.and_eq_true _ _ |>.mp hcond).2
      have hsub : s.toList.drop 4 ⊆ s.toList.drop 1 := by
        have : s.toList.drop 4 = (s.toList.drop 1).drop 3 := by
          rw [List.drop_drop]
        rw [this]
        exact List.drop_subset _ _
      exact List.all_eq_true.mp hall c (hsub hc)
    · rw [if_neg hcond] at h
      exact Option.noConfusion h
  · rw [if_neg hsgn] at h
    by_cases hcond : (!s.toList.isEmpty && s.toList.all Char.isDigit) = true
    · have hall := (Bool.and_eq_true _ _ |>.mp hcond).2
      exact List.all_eq_true.mp hall c (List.drop_subset _ _ hc)
    · rw [if_neg hcond] at h
      exact Option.noConfusion h

/-- C8: format_dates on one cell returns any `int()`-unparseable cell
verbatim (and None as is); on a parseable cell it returns the string
assembled as C8 describes — day the first 2 characters, month the next
2, year the remainder, a 2-digit year prefixed with 20 when its value
is below 20 and 19 otherwise, output YYYY-MM-DD with no calendar
validation; in particular "010203" becomes "2003-02-01", "010299"
becomes "1999-02-01", and "ABC" is returned unchanged. -/
theorem C8_format_dates_rule :
    date_apply_func none = .ok none ∧
    (∀ s : String, pyInt? s = none → date_apply_func (some s) = .ok (some s)) ∧
    (∀ s : String, pyInt? s ≠ none → date_apply_func (some s) = .ok (some (specDateFormat s))) ∧
    date_apply_func (some "010203") = .ok (some "2003-02-01") ∧
    date_apply_func (some "010299") = .ok (some "1999-02-01") ∧
    date_apply_func (some "ABC") = .ok (some "ABC") := by
  refine ⟨rfl, ?_, ?_, by decide, by decide, by decide⟩
  · intro s h
    simp [date_apply_func, h]
  · intro s h
    obtain ⟨v, hv⟩ := Option.ne_none_iff_exists.mp h
    simp only [date_apply_func, ← hv]
    by_cases hy : (String.mk (s.toList.drop 4)).length = 2
    · have hylen : (s.toList.drop 4).length = 2 := hy
      have hyne : s.toList.drop 4 ≠ [] := by
        intro h0; rw [h0] at hylen; exact Nat.noConfusion hylen
      have hydig : ∀ c ∈ s.toList.drop 4, c.isDigit = true :=
        pyInt_some_drop_digits hv.symm
      have hpy : pyInt? (String.mk (s.toList.drop 4)) =
          some ((natOfDigits (s.toList.drop 4) : Int)) := pyInt_digits hyne hydig
      rw [if_pos hy, hpy]
      simp only [specDateFormat, if_pos hy]
      by_cases hlt : natOfDigits (s.toList.drop 4) < 20
      · rw [if_pos (by exact_mod_cast hlt), if_pos hlt]
      · rw [if_neg (by exact_mod_cast hlt), if_neg hlt]
    · rw [if_neg hy]
      simp only [specDateFormat, if_neg hy]

/-- Witness for C8's parseable-cell clause at the cell "010203". -/
theorem C8_format_dates_rule_witness :
    pyInt? "010203" ≠ none ∧
    date_apply_func (some "010203") = .ok (some "2003-02-01") := by
  refine ⟨by decide, ?_⟩
  have h := C8_format_dates_rule.2.2.1 "010203" (by decide)
  exact h.trans (by decide)

/-! Identifier enrichment: tax_id stage with tax_id_print and the
formatters. -/

/-- brazil_tax_id.format_cnpj: formats as xx.xxx.xxx/xxxx-xx using the
Python slices x[:2], x[2:5], x[5:8], x[8:12], x[12:14]. -/
def format_cnpj (x : String) : String :=
  let l := (strip_non_digits x).toList
  String.mk (l.take 2) ++ "." ++ String.mk ((l.drop 2).take 3) ++ "." ++
    String.mk ((l.drop 5).take 3) ++ "/" ++ String.mk ((l.drop 8).take 4) ++ "-" ++
    String.mk ((l.drop 12).take 2)

/-- brazil_tax_id.format_cpf: formats as xxx.xxx.xxx-xx using the Python
slices x[:3], x[3:6], x[6:9], x[9:12]. -/
def format_cpf (x : String) : String :=
  let l := (strip_non_digits x).toList
  String.mk (l.take 3) ++ "." ++ String.mk ((l.drop 3).take 3) ++ "." ++
    String.mk ((l.drop 6).take 3) ++ "-" ++ String.mk ((l.drop 9).take 3)

/-- cleaning_pipeline.tax_id_print on one row: the printable string,
given the type column and the id column of that row. -/
def tax_id_print (ty : String) (idv : Option String) : Option String :=
  if ty = "INVALID" then idv
  else if ty = "CNPJ" then idv.map format_cnpj
  else if ty = "CPF" then idv.map format_cpf
  else none

/-- The digit sum `sum(int(i) for i in list(x))` used by the all-zero
mask of cleaning_pipeline.tax_id: raises ValueError on any non-digit
character of the raw id. -/
def pyDigitSum (s : String) : Except String Nat :=
  match mapDigits s.toList with
  | some ds => .ok ds.sum
  | none => .error "ValueError"

/-- cleaning_pipeline.tax_id for one entity (owner or operator) column
of one row: the raw id is first filled with "0" when NaN and its digit
sum taken (the all-zero mask); an all-zero id becomes NA; the type
column is INVALID by default, EMPTY for NA ids, then overwritten by
CNPJ and CPF validity; the print column applies tax_id_print.  Returns
(updated id, type, print). -/
def tax_id_entity (id0 : Option String) :
    Except String (Option String × String × Option String) :=
  match pyDigitSum (id0.getD "0") with
  | .error e => .error e
  | .ok s =>
    let id1 := if s = 0 then none else id0
    let ty1 := if id1 = none then "EMPTY" else "INVALID"
    match valid_cnpj id1, valid_cpf id1 with
    | .ok cnpj, .ok cpf =>
      let ty2 := if cnpj then "CNPJ" else ty1
      let ty3 := if cpf then "CPF" else ty2
      .ok (id1, ty3, tax_id_print ty3 id1)
    | .error e, _ => .error e
    | _, .error e => .error e

lemma valid_cnpj_total (x : Option String) : ∃ b : Bool, valid_cnpj x = .ok b := by
  match x with
  | none => exact ⟨false, rfl⟩
  | some s =>
    rw [valid_cnpj]
    by_cases hg : strip_non_digits s = "" ∨ (strip_non_digits s).length ≠ 14
    · rw [if_pos hg]; exact ⟨false, rfl⟩
    · rw [if_neg hg]
      push_neg at hg
      have hlen : (digitVals s).length = 14 := by rw [digitVals_length]; exact hg.2
      obtain ⟨hc1, hc2⟩ := check_digits_cnpj_strip s hlen
      rw [hg.2, show (14 - 2 : Nat) = 12 from rfl, mapDigits_strip_drop, hc1, hc2]
      exact ⟨_, rfl⟩

lemma valid_cpf_total (x : Option String) : ∃ b : Bool, valid_cpf x = .ok b := by
  match x with
  | none => exact ⟨false, rfl⟩
  | some s =>
    rw [valid_cpf]
    by_cases hg : strip_non_digits s = "" ∨ (strip_non_digits s).length ≠ 11
    · rw [if_pos hg]; exact ⟨false, rfl⟩
    · rw [if_neg hg]
      push_neg at hg
      have hlen : (digitVals s).length = 11 := by rw [digitVals_length]; exact hg.2
      obtain ⟨hc1, hc2⟩ := check_digits_cpf_strip s hlen
      rw [hg.2, show (11 - 2 : Nat) = 9 from rfl, mapDigits_strip_drop, hc1, hc2]
      exact ⟨_, rfl⟩

/-- Counterexample to C9: on a row whose tax id is the conventionally
formatted string "12.345.678/0001-95" the tax_id stage does not
terminate normally — the all-zero mask computes `int(i)` for every
character of the raw, unstripped id and raises ValueError on the first
dot. -/
theorem C9_counterexample_formatted_id :
    tax_id_entity (some "12.345.678/0001-95") = .error "ValueError" := by decide

/-- C9 (amended): valid_cnpj and valid_cpf are total — for every
string-or-null input they return a boolean and never an exception; the
tax_id stage terminates without throwing on every row whose tax id cell
is null or a digits-only string, and whenever the stage terminates its
type column is exactly one of EMPTY, INVALID, CNPJ, CPF — never null or
absent; a cell with a non-digit character, however, makes the stage
raise ValueError. -/
theorem C9_validators_total_and_enum :
    (∀ x : Option String, ∃ b : Bool, valid_cnpj x = .ok b) ∧
    (∀ x : Option String, ∃ b : Bool, valid_cpf x = .ok b) ∧
    (∀ idv : Option String, (∀ s, idv = some s → ∀ c ∈ s.toList, c.isDigit = true) →
      ∃ r, tax_id_entity idv = .ok r) ∧
    (∀ idv : Option String, ∀ r, tax_id_entity idv = .ok r →
      r.2.1 = "EMPTY" ∨ r.2.1 = "INVALID" ∨ r.2.1 = "CNPJ" ∨ r.2.1 = "CPF") := by
  refine ⟨valid_cnpj_total, valid_cpf_total, ?_, ?_⟩
  · intro idv hdig
    obtain ⟨ds, hds⟩ : ∃ n, pyDigitSum (idv.getD "0") = .ok n := by
      match idv with
      | none => exact ⟨0, rfl⟩
      | some s =>
        rw [pyDigitSum]
        rw [show (some s).getD "0" = s from rfl]
        rw [mapDigits_of_all_digits s.toList (hdig s rfl)]
        exact ⟨_, rfl⟩
    obtain ⟨b1, hb1⟩ := valid_cnpj_total (if ds = 0 then none else idv)
    obtain ⟨b2, hb2⟩ := valid_cpf_total (if ds = 0 then none else idv)
    rw [tax_id_entity, hds]
    simp only [hb1, hb2]
    exact ⟨_, rfl⟩
  · intro idv r hr
    rw [tax_id_entity] at hr
    match hds : pyDigitSum (idv.getD "0") with
    | .error e =>
      rw [hds] at hr
      exact Except.noConfusion hr
    | .ok n =>
      rw [hds] at hr
      dsimp only at hr
      match hb1 : valid_cnpj (if n = 0 then none else idv),
        hb2 : valid_cpf (if n = 0 then none else idv) with
      | .ok c1, .ok c2 =>
        rw [hb1, hb2] at hr
        dsimp only at hr
        have := Except.ok.inj hr
        subst this
        rcases c1 <;> rcases c2 <;>
          by_cases hid : (if n = 0 then none else idv) = none <;>
          simp [hid]
      | .error e, .ok c2 =>
        rw [hb1, hb2] at hr
        try dsimp only at hr
        exact Except.noConfusion hr
      | .error e, .error e2 =>
        rw [hb1, hb2] at hr
        try dsimp only at hr
        exact Except.noConfusion hr
      | .ok c1, .error e =>
        rw [hb1, hb2] at hr
        try dsimp only at hr
        exact Except.noConfusion hr

/-- Witness for C9's digits-only clause at the all-zero cell "0". -/
theorem C9_validators_total_and_enum_witness :
    tax_id_entity (some "0") = .ok (none, "EMPTY", none) := by
  obtain ⟨r, hr⟩ := C9_validators_total_and_enum.2.2.1 (some "0")
    (by intro s hs c hc; rw [Option.some.injEq] at hs; subst hs; revert c hc; decide)
  exact by decide

/-! Rule-based classifier.  A small regex engine covering exactly the
constructs the ag_aircraft and icao_engine patterns use: literals, the
separator class [-_\s] (plain or starred), alternation, and an optional
suffix.  re.search contains-semantics; IGNORECASE is modelled by
upper-casing the subject, the patterns being upper-case ASCII. -/

inductive Pat : Type
  | lit : List Char → Pat
  | cls : List Char → Pat
  | clsStar : List Char → Pat
  | seq : Pat → Pat → Pat
  | alt : Pat → Pat → Pat
  | opt : Pat → Pat
deriving DecidableEq

/-- Remainder after matching a literal at the front of the subject. -/
def litRem : List Char → List Char → Option (List Char)
  | [], s => some s
  | _ :: _, [] => none
  | c :: ps, d :: ss => if c = d then litRem ps ss else none

/-- Remainders after consuming zero or more class characters. -/
def starRem (cs : List Char) : List Char → List (List Char)
  | [] => [[]]
  | d :: ss => (d :: ss) :: (if d ∈ cs then starRem cs ss else [])

/-- All remainders after matching the pattern at the front of the
subject. -/
def Pat.rems : Pat → List Char → List (List Char)
  | .lit p, s => (litRem p s).toList
  | .cls _, [] => []
  | .cls cs, d :: ss => if d ∈ cs then [ss] else []
  | .clsStar cs, s => starRem cs s
  | .seq p q, s => (p.rems s).flatMap q.rems
  | .alt p q, s => p.rems s ++ q.rems s
  | .opt p, s => s :: p.rems s

/-- Truth value of `re.search(pattern, subject, flags=IGNORECASE)`: the
pattern matches at some position of the upper-cased subject. -/
def reSearch (p : Pat) (s : String) : Bool :=
  ((s.toList.map Char.toUpper).tails).any (fun t => !(p.rems t).isEmpty)

/-- The character class [-_\s] (ASCII whitespace as Python re sees
it). -/
def sepChars : List Char := ['-', '_', ' ', '\t', '\n', '\r', '\x0C', '\x0B']

/-- Literal pattern from a string. -/
def plit (s : String) : Pat := .lit s.toList

/-- Pattern (AG){1}[-_\s]*(CAT){1}. -/
def agcatMfgPat : Pat := .seq (plit "AG") (.seq (.clsStar sepChars) (plit "CAT"))

/-- Pattern G{1}[-_\s]*(164){1}A?. -/
def agcatModelPat : Pat :=
  .seq (plit "G") (.seq (.clsStar sepChars) (.seq (plit "164") (.opt (plit "A"))))

/-- Pattern (THRUSH). -/
def thrushMfgPat : Pat := plit "THRUSH"

/-- Pattern (S2R-). -/
def thrushModelPat : Pat := plit "S2R-"

/-- Pattern (CESSNA). -/
def cessnaMfgPat : Pat := plit "CESSNA"

/-- Pattern (188){1}. -/
def cessnaModelPat : Pat := plit "188"

/-- Pattern (PA){1}[-_\s]*(25){1}. -/
def piperModelPat : Pat := .seq (plit "PA") (.seq (.clsStar sepChars) (plit "25"))

/-- Pattern (EMB){1}[-_\s]*(2){1}. -/
def embraerModelPat : Pat := .seq (plit "EMB") (.seq (.clsStar sepChars) (plit "2"))

/-- Pattern AIR TRACTOR. -/
def airTractorMfgPat : Pat := plit "AIR TRACTOR"

/-- Pattern (AT){1}[-_\s](40|50|60|80){1}. -/
def airTractorModelPat : Pat :=
  .seq (plit "AT") (.seq (.cls sepChars)
    (.alt (.alt (plit "40") (plit "50")) (.alt (plit "60") (plit "80"))))

/-- Pattern (401){1}. -/
def pat401 : Pat := plit "401"

/-- The table fields the classifier queries reference. -/
inductive Field : Type
  | mfg
  | model
deriving DecidableEq

/-- One classifier rule: display name, normalize flag, query list of
(field, pattern), and whether its combinator is "all" (true) or "any"
(false). -/
structure Rule : Type where
  name : String
  normalize : Bool
  query : List (Field × Pat)
  isAll : Bool
deriving DecidableEq

/-- One row of the table: the fields the classifier passes read or
write, plus representative other fields for the frame statements. -/
structure Row : Type where
  tail_number : Option String
  owner_tax_id : Option String
  operator_tax_id : Option String
  mfg : Option String
  model : Option String
  icao_type_desc : Option String
  agaircraft : Bool
deriving DecidableEq

/-- Field projection used by the queries. -/
def getField (r : Row) : Field → Option String
  | .mfg => r.mfg
  | .model => r.model

/-- cleaning_pipeline.search_df on one cell: str.contains with
na=False, so a NaN cell never matches. -/
def search_cell (p : Pat) (c : Option String) : Bool :=
  match c with
  | none => false
  | some s => reSearch p s

/-- Row-level selection of one rule: bool_df plus the rule's any/all
combinator. -/
def ruleSel (rule : Rule) (r : Row) : Bool :=
  cond rule.isAll (rule.query.all (fun q => search_cell q.2 (getField r q.1)))
    (rule.query.any (fun q => search_cell q.2 (getField r q.1)))

/-- cleaning_pipeline.ag_aircraft's rule list, in declaration order. -/
def aircraftRules : List Rule := [
  { name := "AG-CAT", normalize := true,
    query := [(Field.mfg, agcatMfgPat), (Field.model, agcatModelPat)], isAll := false },
  { name := "THRUSH AIRCRAFT", normalize := true,
    query := [(Field.mfg, thrushMfgPat), (Field.model, thrushModelPat)], isAll := false },
  { name := "CESSNA AIRCRAFT", normalize := true,
    query := [(Field.mfg, cessnaMfgPat), (Field.model, cessnaModelPat)], isAll := true },
  { name := "PIPER AIRCRAFT", normalize := false,
    query := [(Field.model, piperModelPat)], isAll := false },
  { name := "EMBRAER", normalize := true,
    query := [(Field.model, embraerModelPat)], isAll := false },
  { name := "AIR TRACTOR", normalize := true,
    query := [(Field.mfg, airTractorMfgPat), (Field.model, airTractorModelPat)], isAll := false }]

/-- The loop of cleaning_pipeline.ag_aircraft on one row: rules are
applied in declared order; each rule's selection is evaluated on the
current state (a later rule sees the mfg writes of earlier rules); the
mfg of a selected row is overwritten when the rule normalizes; every
selection is accumulated by logical or. -/
def applyRules : List Rule → Row → Row × Bool
  | [], r => (r, false)
  | rule :: rest, r =>
    let sel := ruleSel rule r
    let r1 := cond (rule.normalize && sel) { r with mfg := some rule.name } r
    let res := applyRules rest r1
    (res.1, sel || res.2)

/-- cleaning_pipeline.ag_aircraft on one row (every column operation of
the stage is row-local). -/
def ag_aircraft_row (r : Row) : Row :=
  let res := applyRules aircraftRules r
  { res.1 with agaircraft := res.2 }

/-- cleaning_pipeline.ag_aircraft on a table. -/
def ag_aircraft (t : List Row) : List Row := t.map ag_aircraft_row

/-- cleaning_pipeline.icao_engine on one row: sel_401 selects radial
Air Tractors (mfg contains AIR TRACTOR and model contains 401);
sel_turbine_ag is mfg exactly AIR TRACTOR minus sel_401, or mfg exactly
THRUSH AIRCRAFT; turbine rows get L1T, remaining agaircraft rows get
L1P. -/
def icao_engine_row (r : Row) : Row :=
  let sel401 := search_cell airTractorMfgPat r.mfg && search_cell pat401 r.model
  let selTurb := (decide (r.mfg = some "AIR TRACTOR") && !sel401) ||
    decide (r.mfg = some "THRUSH AIRCRAFT")
  cond selTurb { r with icao_type_desc := some "L1T" }
    (cond r.agaircraft { r with icao_type_desc := some "L1P" } r)

/-- cleaning_pipeline.icao_engine on a table. -/
def icao_engine (t : List Row) : List Row := t.map icao_engine_row

/-- Field projection as a function of the two queried cells. -/
def cellOf (mf mo : Option String) : Field → Option String
  | .mfg => mf
  | .model => mo

/-- ruleSel as a function of the two queried cells only. -/
def ruleSelCells (rule : Rule) (mf mo : Option String) : Bool :=
  cond rule.isAll (rule.query.all (fun q => search_cell q.2 (cellOf mf mo q.1)))
    (rule.query.any (fun q => search_cell q.2 (cellOf mf mo q.1)))

lemma ruleSel_eq_cells (rule : Rule) (r : Row) :
    ruleSel rule r = ruleSelCells rule r.mfg r.model := by
  have h : ∀ f, getField r f = cellOf r.mfg r.model f := by
    intro f; cases f <;> rfl
  simp only [ruleSel, ruleSelCells, h]

/-- The mfg-and-flag evolution of applyRules as a pure fold over the two
cells the queries read (the model cell is never written). -/
def foldRules : List Rule → Option String → Option String → Option String × Bool
  | [], mf, _ => (mf, false)
  | rule :: rest, mf, mo =>
    let sel := ruleSelCells rule mf mo
    let mf1 := cond (rule.normalize && sel) (some rule.name) mf
    let res := foldRules rest mf1 mo
    (res.1, sel || res.2)

lemma applyRules_eq_foldRules : ∀ (rules : List Rule) (r : Row),
    applyRules rules r = ({ r with mfg := (foldRules rules r.mfg r.model).1 },
      (foldRules rules r.mfg r.model).2) := by
  intro rules
  induction rules with
  | nil => intro r; rfl
  | cons rule rest ih =>
    intro r
    simp only [applyRules, foldRules, ruleSel_eq_cells]
    cases hns : rule.normalize && ruleSelCells rule r.mfg r.model <;>
      simp only [hns, cond_true, cond_false, ih]

lemma sc_ag_ag : search_cell agcatMfgPat (some "AG-CAT") = true := by decide

lemma sc_ag_th : search_cell agcatMfgPat (some "THRUSH AIRCRAFT") = false := by decide

lemma sc_ag_ce : search_cell agcatMfgPat (some "CESSNA AIRCRAFT") = false := by decide

lemma sc_ag_em : search_cell agcatMfgPat (some "EMBRAER") = false := by decide

lemma sc_ag_at : search_cell agcatMfgPat (some "AIR TRACTOR") = false := by decide

lemma sc_th_ag : search_cell thrushMfgPat (some "AG-CAT") = false := by decide

lemma sc_th_th : search_cell thrushMfgPat (some "THRUSH AIRCRAFT") = true := by decide

lemma sc_th_ce : search_cell thrushMfgPat (some "CESSNA AIRCRAFT") = false := by decide

lemma sc_th_em : search_cell thrushMfgPat (some "EMBRAER") = false := by decide

lemma sc_th_at : search_cell thrushMfgPat (some "AIR TRACTOR") = false := by decide

lemma sc_ce_ag : search_cell cessnaMfgPat (some "AG-CAT") = false := by decide

lemma sc_ce_th : search_cell cessnaMfgPat (some "THRUSH AIRCRAFT") = false := by decide

lemma sc_ce_ce : search_cell cessnaMfgPat (some "CESSNA AIRCRAFT") = true := by decide

lemma sc_ce_em : search_cell cessnaMfgPat (some "EMBRAER") = false := by decide

lemma sc_ce_at : search_cell cessnaMfgPat (some "AIR TRACTOR") = false := by decide

lemma sc_at_ag : search_cell airTractorMfgPat (some "AG-CAT") = false := by decide

lemma sc_at_th : search_cell airTractorMfgPat (some "THRUSH AIRCRAFT") = false := by decide

lemma sc_at_ce : search_cell airTractorMfgPat (some "CESSNA AIRCRAFT") = false := by decide

lemma sc_at_em : search_cell airTractorMfgPat (some "EMBRAER") = false := by decide

lemma sc_at_at : search_cell airTractorMfgPat (some "AIR TRACTOR") = true := by decide

set_option maxHeartbeats 1600000 in
lemma foldRules_idem (mf mo : Option String) :
    foldRules aircraftRules (foldRules aircraftRules mf mo).1 mo =
      foldRules aircraftRules mf mo := by
  cases h1 : search_cell agcatMfgPat mf <;>
  cases h2 : search_cell agcatModelPat mo <;>
  cases h3 : search_cell thrushMfgPat mf <;>
  cases h4 : search_cell thrushModelPat mo <;>
  cases h5 : search_cell cessnaMfgPat mf <;>
  cases h6 : search_cell cessnaModelPat mo <;>
  cases h8 : search_cell embraerModelPat mo <;>
  cases h9 : search_cell airTractorMfgPat mf <;>
  cases h10 : search_cell airTractorModelPat mo <;>
    simp only [aircraftRules, foldRules, ruleSelCells, cellOf, List.any_cons, List.any_nil,
      List.all_cons, List.all_nil, Bool.or_false, Bool.and_true, Bool.true_and, Bool.false_and,
      h1, h2, h3, h4, h5, h6, h8, h9, h10,
      sc_ag_ag, sc_ag_th, sc_ag_ce, sc_ag_em, sc_ag_at,
      sc_th_ag, sc_th_th, sc_th_ce, sc_th_em, sc_th_at,
      sc_ce_ag, sc_ce_th, sc_ce_ce, sc_ce_em, sc_ce_at,
      sc_at_ag, sc_at_th, sc_at_ce, sc_at_em, sc_at_at,
      Bool.or_true, Bool.true_or, Bool.false_or, cond_true, cond_false]

lemma ag_aircraft_row_idem (r : Row) :
    ag_aircraft_row (ag_aircraft_row r) = ag_aircraft_row r := by
  obtain ⟨a, b, c, mf, mo, ic, ag⟩ := r
  simp only [ag_aircraft_row, applyRules_eq_foldRules]
  rw [foldRules_idem]

/-- C6: applying the classification stage ag_aircraft twice in
succession yields a table identical to applying it once — the second
application changes no row's mfg value and no row's agaircraft flag. -/
theorem C6_ag_aircraft_idempotent (t : List Row) :
    ag_aircraft (ag_aircraft t) = ag_aircraft t := by
  simp only [ag_aircraft, List.map_map]
  exact List.map_congr_left (fun r _ => ag_aircraft_row_idem r)

/-- The rules that select a row during one run of ag_aircraft's loop,
in declaration order, each selection evaluated (exactly as the loop
does) on the state the preceding rules produced. -/
def matchedRules : List Rule → Row → List Rule
  | [], _ => []
  | rule :: rest, r =>
    let sel := ruleSel rule r
    let r1 := cond (rule.normalize && sel) { r with mfg := some rule.name } r
    (cond sel [rule] []) ++ matchedRules rest r1

lemma applyRules_mfg_foldl : ∀ (rules : List Rule) (r : Row),
    (applyRules rules r).1.mfg =
      ((matchedRules rules r).filter (fun rl => rl.normalize)).foldl
        (fun _ rl => some rl.name) r.mfg := by
  intro rules
  induction rules with
  | nil => intro r; rfl
  | cons rule rest ih =>
    intro r
    simp only [applyRules, matchedRules]
    cases hsel : ruleSel rule r
    · simp only [Bool.and_false, cond_false, List.nil_append, ih]
    · cases hn : rule.normalize
      · simp only [hn, Bool.false_and, cond_false, cond_true, List.cons_append,
          List.nil_append, ih, List.filter_cons, hn]
        simp [hn]
      · simp only [hn, Bool.true_and, cond_true, List.cons_append, List.nil_append,
          ih, List.filter_cons]
        simp [hn]

lemma foldl_name_last : ∀ (l : List Rule) (init : Option String) (x : Rule),
    l.getLast? = some x → l.foldl (fun _ rl => some rl.name) init = some x.name := by
  intro l
  induction l with
  | nil => intro init x h; exact Option.noConfusion h
  | cons a as ih =>
    intro init x h
    cases as with
    | nil =>
      have : a = x := by simpa [List.getLast?] using h
      subst this
      rfl
    | cons b bs =>
      rw [List.foldl_cons]
      apply ih
      rwa [List.getLast?_cons_cons] at h

/-- C7: ag_aircraft's rules are applied in declaration order and are
not mutually exclusive; whenever two or more rules with the normalize
flag select a row (each selection evaluated, as the loop does, on the
state the earlier rules produced), the row's final mfg after
ag_aircraft is the display name of the LAST such rule in declaration
order — later rules overwrite the mfg set by earlier rules. -/
theorem C7_last_matching_rule_wins (r : Row) (rl : Rule)
    (htwo : 2 ≤ ((matchedRules aircraftRules r).filter (fun x => x.normalize)).length)
    (hlast : ((matchedRules aircraftRules r).filter (fun x => x.normalize)).getLast? = some rl) :
    (ag_aircraft_row r).mfg = some rl.name := by
  have h1 : (ag_aircraft_row r).mfg = (applyRules aircraftRules r).1.mfg := rfl
  rw [h1, applyRules_mfg_foldl]
  exact foldl_name_last _ _ _ hlast

/-- Witness for C7: the row with mfg "THRUSH" and model "AT-402" is
selected by the THRUSH AIRCRAFT rule (via mfg) and then by the AIR
TRACTOR rule (via model); its final mfg is AIR TRACTOR, the later
rule's name. -/
theorem C7_last_matching_rule_wins_witness :
    2 ≤ ((matchedRules aircraftRules
      { tail_number := none, owner_tax_id := none, operator_tax_id := none,
        mfg := some "THRUSH", model := some "AT-402", icao_type_desc := none,
        agaircraft := false }).filter (fun x => x.normalize)).length ∧
    (ag_aircraft_row
      { tail_number := none, owner_tax_id := none, operator_tax_id := none,
        mfg := some "THRUSH", model := some "AT-402", icao_type_desc := none,
        agaircraft := false }).mfg = some "AIR TRACTOR" := by
  refine ⟨by decide, ?_⟩
  exact C7_last_matching_rule_wins _
    { name := "AIR TRACTOR", normalize := true,
      query := [(Field.mfg, airTractorMfgPat), (Field.model, airTractorModelPat)],
      isAll := false }
    (by decide) (by decide)

/-- C10: the classification passes touch only their declared output
columns — ag_aircraft modifies no field other than mfg and agaircraft,
icao_engine modifies no field other than icao_type_desc, and a row that
is neither selected as turbine (mfg exactly AIR TRACTOR excluding the
401 model variant, or mfg exactly THRUSH AIRCRAFT) nor flagged
agaircraft keeps its original icao_type_desc unchanged. -/
theorem C10_classifier_frame :
    (∀ r : Row, (ag_aircraft_row r).tail_number = r.tail_number ∧
      (ag_aircraft_row r).owner_tax_id = r.owner_tax_id ∧
      (ag_aircraft_row r).operator_tax_id = r.operator_tax_id ∧
      (ag_aircraft_row r).model = r.model ∧
      (ag_aircraft_row r).icao_type_desc = r.icao_type_desc) ∧
    (∀ r : Row, (icao_engine_row r).tail_number = r.tail_number ∧
      (icao_engine_row r).owner_tax_id = r.owner_tax_id ∧
      (icao_engine_row r).operator_tax_id = r.operator_tax_id ∧
      (icao_engine_row r).mfg = r.mfg ∧
      (icao_engine_row r).model = r.model ∧
      (icao_engine_row r).agaircraft = r.agaircraft) ∧
    (∀ r : Row,
      ¬((r.mfg = some "AIR TRACTOR" ∧
          ¬(search_cell airTractorMfgPat r.mfg = true ∧ search_cell pat401 r.model = true)) ∨
        r.mfg = some "THRUSH AIRCRAFT") →
      r.agaircraft = false →
      (icao_engine_row r).icao_type_desc = r.icao_type_desc) := by
  refine ⟨?_, ?_, ?_⟩
  · intro r
    simp only [ag_aircraft_row, applyRules_eq_foldRules]
    simp
  · intro r
    cases hc1 : (decide (r.mfg = some "AIR TRACTOR") &&
        !(search_cell airTractorMfgPat r.mfg && search_cell pat401 r.model)) ||
        decide (r.mfg = some "THRUSH AIRCRAFT") <;>
      cases hc2 : r.agaircraft <;>
      simp only [icao_engine_row, hc1, hc2, cond_true, cond_false] <;>
      simp
  · intro r hturb hag
    have hb : ((decide (r.mfg = some "AIR TRACTOR") &&
        !(search_cell airTractorMfgPat r.mfg && search_cell pat401 r.model)) ||
        decide (r.mfg = some "THRUSH AIRCRAFT")) = false := by
      push_neg at hturb
      obtain ⟨h1, h2⟩ := hturb
      simp only [Bool.or_eq_false_iff, Bool.and_eq_false_iff, decide_eq_false_iff_not]
      refine ⟨?_, h2⟩
      by_cases hat : r.mfg = some "AIR TRACTOR"
      · right
        obtain ⟨hs1, hs2⟩ := h1 hat
        simp [hs1, hs2]
      · left; exact hat
    simp only [icao_engine_row, hb, cond_false, hag]

/-- Witness for C10's untouched-row clause: a CESSNA-mfg row with the
agaircraft flag false keeps its icao_type_desc. -/
theorem C10_classifier_frame_witness :
    (icao_engine_row
      { tail_number := none, owner_tax_id := none, operator_tax_id := none,
        mfg := some "CESSNA AIRCRAFT", model := some "188B",
        icao_type_desc := some "L2P", agaircraft := false }).icao_type_desc =
      some "L2P" := by
  exact C10_classifier_frame.2.2
    { tail_number := none, owner_tax_id := none, operator_tax_id := none,
      mfg := some "CESSNA AIRCRAFT", model := some "188B",
      icao_type_desc := some "L2P", agaircraft := false }
    (by decide) (by decide)

end Rab
